import Mathlib

/-!
Shallow embedding of the consul service-discovery adapter
(`registry/consul/service_discovery.go`) of dubbo-go, together with proofs
about its registration lifecycle, instance codec, heartbeat loop and paging.

Go maps over string keys are embedded as association lists (`MetaMap`);
`nil` maps are `Option`-wrapped (`none` = nil).  Panicking executions
(nil-map writes, calls through a nil client) are embedded as `none`
results.  Backend RPC outcomes are passed in explicitly as
`Option String` (`none` = success, `some e` = the backend's error text).
-/

/-- Go map string→string, embedded as an association list with unique keys. -/
abbrev MetaMap := List (String × String)

/-- Go map read with the zero value: `m[k]` (comma-ok discarded). -/
def mapGet? (m : MetaMap) (k : String) : Option String :=
  (m.find? (fun p => p.1 == k)).map (fun p => p.2)

/-- Go map read `m[k]` returning the zero value `""` when absent. -/
def mapGet (m : MetaMap) (k : String) : String :=
  (mapGet? m k).getD ""

/-- Go map write `m[k] = v`: replace in place or append. -/
def mapSet (m : MetaMap) (k v : String) : MetaMap :=
  match m with
  | [] => [(k, v)]
  | (k', v') :: rest => if k' == k then (k, v) :: rest else (k', v') :: mapSet rest k v

/-- Go `delete(m, k)`. -/
def mapDel (m : MetaMap) (k : String) : MetaMap :=
  m.filter (fun p => p.1 != k)

/-- The reserved metadata key: `const enable = "enable"` (line 46). -/
def enable : String := "enable"

/-- `strconv.FormatBool`. -/
def formatBool (b : Bool) : String :=
  if b then "true" else "false"

/-- `strconv.ParseBool`: `none` embeds the error return; the discarded
value is then the zero value `false`. -/
def parseBool (s : String) : Option Bool :=
  if s == "1" || s == "t" || s == "T" || s == "TRUE" || s == "true" || s == "True" then
    some true
  else if s == "0" || s == "f" || s == "F" || s == "FALSE" || s == "false" || s == "False" then
    some false
  else
    none

/-- `registry.ServiceInstance` / `registry.DefaultServiceInstance`:
id, serviceName, host, port, enable, healthy, metadata.  A `none`
metadata embeds a Go nil map. -/
structure ServiceInstance where
  id : String
  serviceName : String
  host : String
  port : Int
  enable : Bool
  healthy : Bool
  metadata : Option MetaMap
deriving DecidableEq, Repr

/-- `instance.GetMetadata()` as read through Go nil-map lookups
(a nil map reads like an empty one). -/
def getMetadata (inst : ServiceInstance) : MetaMap :=
  inst.metadata.getD []

/-- `buildID` (line 404): the derived instance key
`fmt.Sprintf("id:%s,serviceName:%s,host:%s,port:%d", ...)`. -/
def buildID (inst : ServiceInstance) : String :=
  "id:" ++ inst.id ++ ",serviceName:" ++ inst.serviceName ++
    ",host:" ++ inst.host ++ ",port:" ++ toString inst.port

/-- The configuration part of `consulServiceDiscovery` used by the codec:
`checkPassInterval` is the configured check-pass interval in milliseconds. -/
structure ConsulServiceDiscovery where
  descriptor : String
  checkPassInterval : Int
  tag : String
deriving DecidableEq, Repr

/-- Modelled from the spec: the framework constant `constant.DEREGISTER_AFTER`
(the metadata key naming a deregister-after-critical duration); the constant
package is not under src/.  Its concrete value is irrelevant to the claims. -/
def DEREGISTER_AFTER : String := "deregister-critical-service-after"

/-- Modelled from the spec: the framework constant
`constant.DEFAULT_DEREGISTER_TIME` (the fixed default deregister-after
duration); the constant package is not under src/. -/
def DEFAULT_DEREGISTER_TIME : String := "20s"

/-- `consul.AgentServiceCheck` (the fields this adapter sets). -/
structure AgentServiceCheck where
  checkID : String
  ttl : String
  deregisterCriticalServiceAfter : String
deriving DecidableEq, Repr

/-- `consul.AgentServiceRegistration` (the fields this adapter sets). -/
structure AgentServiceRegistration where
  id : String
  name : String
  port : Int
  address : String
  meta : MetaMap
  check : AgentServiceCheck
deriving DecidableEq, Repr

/-- `buildCheck` (lines 391-402): TTL string is
`strconv.FormatInt(csd.checkPassInterval/1000, 10) + "s"` (Go int64
division truncates toward zero, hence `Int.tdiv`); the
deregister-after-critical duration comes from the instance metadata
when present and non-empty, else the fixed default. -/
def buildCheck (csd : ConsulServiceDiscovery) (inst : ServiceInstance) : AgentServiceCheck :=
  let deregister :=
    match mapGet? (getMetadata inst) DEREGISTER_AFTER with
    | none => DEFAULT_DEREGISTER_TIME
    | some v => if v == "" then DEFAULT_DEREGISTER_TIME else v
  { checkID := buildID inst
    ttl := toString (Int.tdiv csd.checkPassInterval 1000) ++ "s"
    deregisterCriticalServiceAfter := deregister }

/-- `buildRegisterInstance` (lines 371-389).  The Go code writes the
reserved `enable` key into `instance.GetMetadata()` itself (Go maps are
references), so the function returns both the registration record and
the caller's instance as observable after the call: when the metadata
map was nil a fresh local map is used and the caller sees no change;
otherwise the caller's map now holds the `enable` key.  `buildCheck` is
called after that write, i.e. on the post-write instance. -/
def buildRegisterInstance (csd : ConsulServiceDiscovery) (inst : ServiceInstance) :
    AgentServiceRegistration × ServiceInstance :=
  let metadata :=
    match inst.metadata with
    | none => ([] : MetaMap)
    | some m => m
  let metadata := mapSet metadata enable (formatBool inst.enable)
  let callerAfter :=
    match inst.metadata with
    | none => inst
    | some _ => { inst with metadata := some metadata }
  ({ id := buildID inst
     name := inst.serviceName
     port := inst.port
     address := inst.host
     meta := metadata
     check := buildCheck csd callerAfter },
   callerAfter)

/-- `consul.HealthPassing` (constant of the consul api library). -/
def HealthPassing : String := "passing"

/-- The part of a `consul.ServiceEntry` read by `GetInstances`
(lines 236-259): `ins.Service.{ID,Service,Address,Port,Meta}` and
`ins.Checks.AggregatedStatus()`. -/
structure ServiceEntry where
  serviceID : String
  serviceService : String
  serviceAddress : String
  servicePort : Int
  serviceMeta : MetaMap
  checksAggregatedStatus : String
deriving DecidableEq, Repr

/-- The inbound translation performed per entry inside `GetInstances`
(lines 237-259): read and delete the reserved `enable` key, parse it
(parse failure yields the zero value `false`), derive `healthy` from
the aggregated status, and copy id/service/host/port. -/
def decodeServiceEntry (ins : ServiceEntry) : ServiceInstance :=
  let metadata := ins.serviceMeta
  let enableStr := mapGet metadata enable
  let metadata := mapDel metadata enable
  let enableVal := (parseBool enableStr).getD false
  let healthy := ins.checksAggregatedStatus == HealthPassing
  { id := ins.serviceID
    serviceName := ins.serviceService
    host := ins.serviceAddress
    port := ins.servicePort
    enable := enableVal
    healthy := healthy
    metadata := some metadata }

/-- How a registration record written by this adapter comes back as a
health entry: the backend stores id/name/address/port/meta verbatim and
attaches an aggregated check status. -/
def entryOfRegistration (r : AgentServiceRegistration) (status : String) : ServiceEntry :=
  { serviceID := r.id
    serviceService := r.name
    serviceAddress := r.address
    servicePort := r.port
    serviceMeta := r.meta
    checksAggregatedStatus := status }

/-- The heartbeat period set in `registerTtl` (line 158), in nanoseconds:
`time.Duration(csd.checkPassInterval/8) * time.Millisecond`
(`time.Duration` counts nanoseconds, `time.Millisecond = 10^6`). -/
def registerTtlPeriodNs (csd : ConsulServiceDiscovery) : Int :=
  Int.tdiv csd.checkPassInterval 8 * 1000000

/-- The `WaitTime` passed to the health query in `GetInstances`
(lines 227-230), in nanoseconds: `waitTime := GetParamInt(WATCH_TIMEOUT)/1000`
then `time.Duration(waitTime)`, which is `waitTime` nanoseconds. -/
def getInstancesWaitTimeNs (watchTimeoutMs : Int) : Int :=
  Int.tdiv watchTimeoutMs 1000

/-- Milliseconds rendered as a `time.Duration` nanosecond count. -/
def msToNs (ms : Int) : Int :=
  ms * 1000000

/-- One observable step of the heartbeat goroutine of `registerTtl`
(lines 160-177): either the timer fires (the task then issues one
`PassTTL` call whose outcome is `passErr`) or the stop channel is
received. -/
inductive HbEvent where
  | tick (passErr : Option String)
  | stop
deriving DecidableEq, Repr

/-- Whether the event is the stop signal. -/
def HbEvent.isStop : HbEvent → Bool
  | .stop => true
  | .tick _ => false

/-- The heartbeat loop run over a schedule of events: returns the number
of `PassTTL` calls issued and whether the goroutine has returned.  A tick
makes one pass call and continues the loop whatever the pass outcome
(the `err != nil` branch only logs and breaks out of the `select`); the
stop case returns from the goroutine. -/
def hbRun : List HbEvent → Nat × Bool
  | [] => (0, false)
  | .tick _ :: rest => ((hbRun rest).1 + 1, (hbRun rest).2)
  | .stop :: _ => (0, true)

/-- `gxpage.New(offset, pageSize, res, len(all))`. -/
structure Pager where
  offset : Nat
  pageSize : Nat
  data : List ServiceInstance
  totalCount : Nat
deriving DecidableEq, Repr

/-- The scanning loop of `GetHealthyInstancesByPage` (lines 278-289),
already positioned at source index `offset` (the list argument is
`all.drop offset`); the `Nat` argument is `pageSize - count`. -/
def healthyScan (healthy : Bool) : Nat → List ServiceInstance → List ServiceInstance
  | _, [] => []
  | 0, _ :: _ => []
  | Nat.succ n, x :: xs =>
    if x.healthy == healthy then x :: healthyScan healthy n xs
    else healthyScan healthy (Nat.succ n) xs

/-- `GetHealthyInstancesByPage` (lines 274-291), given the materialised
instance list `all` (= `GetInstances(serviceName)`). -/
def GetHealthyInstancesByPage (all : List ServiceInstance) (offset pageSize : Nat)
    (healthy : Bool) : Pager :=
  { offset := offset
    pageSize := pageSize
    data := healthyScan healthy pageSize (all.drop offset)
    totalCount := all.length }

/-- The adapter's lifecycle state.  Stop channels are identified by the
order of their `make(chan struct)` allocation (`nextChan` counts them).
`consulClient` is whether the client is non-nil; `ttl` is the `ttl` map
(`none` = nil, otherwise its entries key → current stop channel, in
insertion order); `tasks` lists the heartbeat goroutines still running,
each with the stop channel it listens on — an entry whose channel was
overwritten out of the map is orphaned: still running, no longer
cancellable; `registered` is the set of instance keys currently
registered at the backend agent by this adapter's successful
register/deregister calls (what the adapter can believe registered from
its call results). -/
structure CSDState where
  consulClient : Bool
  ttl : Option (List (String × Nat))
  tasks : List (String × Nat)
  nextChan : Nat
  registered : List String
deriving DecidableEq, Repr

/-- Go map-key insertion for the embedded key sets. -/
def keyInsert (l : List String) (k : String) : List String :=
  if k ∈ l then l else l ++ [k]

/-- Go map read `m[k]` on the channel map (comma-ok as `Option`). -/
def chanGet? (m : List (String × Nat)) (k : String) : Option Nat :=
  (m.find? (fun p => p.1 == k)).map (fun p => p.2)

/-- Go map write `m[k] = c` on the channel map: replace in place or
append; a replacement is exactly the stop-channel overwrite a duplicate
`Register` performs. -/
def chanSet (m : List (String × Nat)) (k : String) (c : Nat) : List (String × Nat) :=
  match m with
  | [] => [(k, c)]
  | (k', c') :: rest => if k' == k then (k, c) :: rest else (k', c') :: chanSet rest k c

/-- The state right after `newConsulServiceDiscovery` + `Init`:
client present, empty `ttl` map, no tasks, nothing registered. -/
def initState : CSDState :=
  { consulClient := true, ttl := some [], tasks := [], nextChan := 0, registered := [] }

/-- `registerTtl` (lines 152-179) as it affects the state: makes a fresh
stop channel, writes it under `buildID(instance)` into the `ttl` map (a
write to a nil map panics, embedded as `none`; a write to a live key
overwrites the previous channel, orphaning the goroutine that listens on
it), and starts a new heartbeat goroutine listening on the fresh
channel; always returns a nil error. -/
def registerTtl (s : CSDState) (inst : ServiceInstance) : Option CSDState :=
  match s.ttl with
  | none => none
  | some m =>
      some { s with
        ttl := some (chanSet m (buildID inst) s.nextChan)
        tasks := s.tasks ++ [(buildID inst, s.nextChan)]
        nextChan := s.nextChan + 1 }

/-- `Register` (lines 142-150): backend `ServiceRegister` (through a nil
client: no defined result), on backend error returns it wrapped by
`perrors.WithMessage` and changes nothing, on success registers the key
and calls `registerTtl`. -/
def Register (s : CSDState) (inst : ServiceInstance) (backendErr : Option String) :
    Option (Option String × CSDState) :=
  if s.consulClient = false then none
  else
    match backendErr with
    | some e =>
        some (some ("consul could not register the instance. " ++ inst.serviceName ++ ": " ++ e), s)
    | none =>
        match registerTtl { s with registered := keyInsert s.registered (buildID inst) } inst with
        | none => none
        | some s' => some (none, s')

/-- `Update` (lines 181-188): best-effort `ServiceDeregister` (its error
is only logged), then `ServiceRegister`, whose raw error is returned.
The `ttl` map is never touched. -/
def Update (s : CSDState) (inst : ServiceInstance) (deregErr regErr : Option String) :
    Option (Option String × CSDState) :=
  if s.consulClient = false then none
  else
    let s1 :=
      match deregErr with
      | none => { s with registered := s.registered.erase (buildID inst) }
      | some _ => s
    match regErr with
    | none => some (none, { s1 with registered := keyInsert s1.registered (buildID inst) })
    | some e => some (some e, s1)

/-- `Unregister` (lines 190-204): backend `ServiceDeregister`; on error
return it unchanged; on success look the key up in the `ttl` map (a nil
map reads as empty); when present, `close(stopChanel)` terminates
exactly the goroutines listening on that channel (an orphaned goroutine
listens on an older channel and survives) and the entry is deleted;
when absent only a warning is logged; a nil error is returned. -/
def Unregister (s : CSDState) (inst : ServiceInstance) (backendErr : Option String) :
    Option (Option String × CSDState) :=
  if s.consulClient = false then none
  else
    match backendErr with
    | some e => some (some e, s)
    | none =>
        let s1 := { s with registered := s.registered.erase (buildID inst) }
        match s1.ttl with
        | none => some (none, s1)
        | some m =>
            match chanGet? m (buildID inst) with
            | none => some (none, s1)
            | some c =>
                some (none, { s1 with
                  tasks := s1.tasks.filter (fun p => p.2 != c)
                  ttl := some (m.filter (fun p => p.1 != buildID inst)) })

/-- `Destroy` (lines 133-140): nils the client, closes every stop
channel still referenced by the `ttl` map — terminating exactly the
goroutines listening on those channels, so an orphaned goroutine whose
channel was overwritten out of the map survives even `Destroy` — and
nils the map; the backend registrations are not touched.  Always
returns a nil error. -/
def Destroy (s : CSDState) : Option String × CSDState :=
  match s.ttl with
  | none => (none, { s with consulClient := false, ttl := none })
  | some m =>
      (none, { s with
        consulClient := false
        tasks := s.tasks.filter (fun p => decide (p.2 ∉ m.map Prod.snd))
        ttl := none })

/-- One facade operation together with the backend outcomes it runs into. -/
inductive AdapterOp where
  | register (inst : ServiceInstance) (backendErr : Option String)
  | update (inst : ServiceInstance) (deregErr regErr : Option String)
  | unregister (inst : ServiceInstance) (backendErr : Option String)
  | destroy
deriving DecidableEq, Repr

/-- Whether the operation is an `Update`. -/
def AdapterOp.isUpdate : AdapterOp → Bool
  | .update _ _ _ => true
  | _ => false

/-- The state transition of one operation (`none` = the call panics). -/
def stepOp (s : CSDState) : AdapterOp → Option CSDState
  | .register i e => (Register s i e).map (fun r => r.2)
  | .update i d r => (Update s i d r).map (fun r => r.2)
  | .unregister i e => (Unregister s i e).map (fun r => r.2)
  | .destroy => some (Destroy s).2

/-- Run a sequence of operations from a state. -/
def runFrom (s : CSDState) : List AdapterOp → Option CSDState
  | [] => some s
  | op :: ops =>
    match stepOp s op with
    | none => none
    | some s' => runFrom s' ops

/-- Run a sequence of operations from the freshly initialised adapter. -/
def runOps (ops : List AdapterOp) : Option CSDState :=
  runFrom initState ops

/-- The key set of the `ttl` map.  This is not the set of running
heartbeat tasks: after a stop-channel overwrite the map has lost the
orphaned task's entry. -/
def ttlMapKeys (s : CSDState) : List String :=
  (s.ttl.getD []).map Prod.fst

/-- The instance keys with an active heartbeat task: the goroutines
still running, orphaned ones included. -/
def taskKeys (s : CSDState) : List String :=
  s.tasks.map Prod.fst

/-- The instance keys this adapter instance currently believes
registered: the keys its successful backend calls left registered; a
destroyed adapter no longer believes anything registered. -/
def believedRegistered (s : CSDState) : List String :=
  if s.consulClient then s.registered else []

/-- The inductive invariant: alive with the `ttl` map holding exactly
the running tasks (same entries, same channels), whose keys are the
registered keys, keys and channels all distinct and every channel
allotted below `nextChan`; or destroyed with a nil map and no surviving
task. -/
def goodState (s : CSDState) : Prop :=
  (s.consulClient = true ∧ s.ttl = some s.tasks
     ∧ s.tasks.map Prod.fst = s.registered
     ∧ (s.tasks.map Prod.fst).Nodup
     ∧ (s.tasks.map Prod.snd).Nodup
     ∧ (∀ p ∈ s.tasks, p.2 < s.nextChan))
  ∨ (s.consulClient = false ∧ s.ttl = none ∧ s.tasks = [])

/-- Whether a run performs no stop-channel overwrite: along the run, no
successful backend register is issued for an instance key already
present in the `ttl` map (such a `Register` overwrites that key's stop
channel in `registerTtl` and orphans the goroutine of the previous
registration). -/
def noChannelOverwrite : CSDState → List AdapterOp → Bool
  | _, [] => true
  | s, op :: ops =>
      (match op with
       | .register i none => decide (buildID i ∉ ttlMapKeys s)
       | _ => true)
      && (match stepOp s op with
          | none => true
          | some s' => noChannelOverwrite s' ops)

/-- A concrete instance with a non-nil empty metadata map. -/
def iA : ServiceInstance :=
  { id := "a", serviceName := "svc", host := "h", port := 8080,
    enable := true, healthy := true, metadata := some [] }

/-- A concrete instance with a nil metadata map. -/
def iNil : ServiceInstance :=
  { id := "b", serviceName := "svc", host := "h", port := 8081,
    enable := false, healthy := false, metadata := none }

/-- A concrete configuration with the 16000 ms default check-pass interval. -/
def csd0 : ConsulServiceDiscovery :=
  { descriptor := "consul-service-discovery[addr]", checkPassInterval := 16000, tag := "" }

/-- A concrete instance carrying a deregister-after-critical duration. -/
def iDereg : ServiceInstance :=
  { id := "c", serviceName := "svc", host := "h", port := 8082,
    enable := true, healthy := true, metadata := some [(DEREGISTER_AFTER, "90s")] }

/-- The adapter state right after a successful `Register iA`: one task
listening on channel 0, which the `ttl` map still references. -/
def stA : CSDState :=
  { consulClient := true, ttl := some [(buildID iA, 0)], tasks := [(buildID iA, 0)],
    nextChan := 1, registered := [buildID iA] }

/-- A backend entry whose `enable` metadata value does not parse as a boolean. -/
def eBad : ServiceEntry :=
  { serviceID := "x", serviceService := "svc", serviceAddress := "h", servicePort := 1,
    serviceMeta := [(enable, "yes")], checksAggregatedStatus := HealthPassing }

/-- Concrete healthy instance at source position 0. -/
def iH0 : ServiceInstance :=
  { id := "p0", serviceName := "svc", host := "h0", port := 1,
    enable := true, healthy := true, metadata := some [] }

/-- Concrete unhealthy instance at source position 1. -/
def iU1 : ServiceInstance :=
  { id := "p1", serviceName := "svc", host := "h1", port := 2,
    enable := true, healthy := false, metadata := some [] }

/-- Concrete healthy instance at source position 2. -/
def iH2 : ServiceInstance :=
  { id := "p2", serviceName := "svc", host := "h2", port := 3,
    enable := true, healthy := true, metadata := some [] }

/-- Concrete healthy instance at source position 3. -/
def iH3 : ServiceInstance :=
  { id := "p3", serviceName := "svc", host := "h3", port := 4,
    enable := true, healthy := true, metadata := some [] }

/-! ## Helper lemmas -/

/-- Reading back the key just written into a Go map. -/
theorem mapGet?_mapSet_self (m : MetaMap) (k v : String) :
    mapGet? (mapSet m k v) k = some v := by
  induction m with
  | nil => simp [mapSet, mapGet?, List.find?]
  | cons p rest ih =>
    obtain ⟨k', v'⟩ := p
    by_cases h : k' = k
    · simp [mapSet, h, mapGet?, List.find?]
    · simpa [mapSet, h, mapGet?, List.find?] using ih

/-- A deleted key is gone. -/
theorem mapGet?_mapDel_self (m : MetaMap) (k : String) :
    mapGet? (mapDel m k) k = none := by
  induction m with
  | nil => simp [mapDel, mapGet?, List.find?]
  | cons p rest ih =>
    obtain ⟨k', v'⟩ := p
    simp only [mapDel] at ih ⊢
    by_cases h : k' = k
    · simp only [List.filter_cons, h, bne_self_eq_false, Bool.false_eq_true, if_false]
      exact ih
    · simp [List.filter_cons, h, mapGet?, List.find?, ih]

/-- `strconv.ParseBool` inverts `strconv.FormatBool`. -/
theorem parseBool_formatBool (b : Bool) : parseBool (formatBool b) = some b := by
  cases b <;> decide

/-- The scanning loop of `GetHealthyInstancesByPage` collects exactly the
first `pageSize` matching entries of its list. -/
theorem healthyScan_eq_filter_take (h : Bool) (n : Nat) (l : List ServiceInstance) :
    healthyScan h n l = (l.filter (fun x => x.healthy == h)).take n := by
  induction l generalizing n with
  | nil => cases n <;> simp [healthyScan]
  | cons x xs ih =>
    cases n with
    | zero => simp [healthyScan]
    | succ n =>
      by_cases hx : x.healthy == h
      · simp [healthyScan, hx, ih]
      · simp [healthyScan, hx, ih]

/-- The heartbeat loop has returned exactly when its schedule contains the
stop signal. -/
theorem hbRun_snd_iff (evs : List HbEvent) :
    (hbRun evs).2 = true ↔ HbEvent.stop ∈ evs := by
  induction evs with
  | nil => simp [hbRun]
  | cons e rest ih =>
    cases e with
    | tick p => simp [hbRun, ih]
    | stop => simp [hbRun]

/-- The heartbeat loop issues one pass call per tick that precedes the
first stop signal, and none after it. -/
theorem hbRun_fst_eq (evs : List HbEvent) :
    (hbRun evs).1 = (evs.takeWhile (fun ev => !ev.isStop)).length := by
  induction evs with
  | nil => simp [hbRun]
  | cons e rest ih =>
    cases e with
    | tick p => simp [hbRun, List.takeWhile_cons, HbEvent.isStop, ih]
    | stop => simp [hbRun, List.takeWhile_cons, HbEvent.isStop]

/-- A `chanGet?` miss is exactly key absence. -/
theorem chanGet?_eq_none_iff (m : List (String × Nat)) (k : String) :
    chanGet? m k = none ↔ k ∉ m.map Prod.fst := by
  induction m with
  | nil => simp [chanGet?]
  | cons p rest ih =>
    obtain ⟨k', c'⟩ := p
    by_cases h : k' = k
    · simp [chanGet?, List.find?, h]
    · have hred : chanGet? ((k', c') :: rest) k = chanGet? rest k := by
        simp only [chanGet?, List.find?]
        rw [show ((k' == k) = false) from by simp [h]]
      rw [hred, ih]
      simp [Ne.symm h]

/-- A `chanGet?` hit returns an entry of the map. -/
theorem chanGet?_mem {m : List (String × Nat)} {k : String} {c : Nat}
    (h : chanGet? m k = some c) : (k, c) ∈ m := by
  induction m with
  | nil => simp [chanGet?] at h
  | cons p rest ih =>
    obtain ⟨k', c'⟩ := p
    by_cases hk : k' = k
    · subst hk
      simp only [chanGet?, List.find?, beq_self_eq_true, Option.map_some',
        Option.some.injEq] at h
      exact h ▸ List.mem_cons_self _ _
    · simp only [chanGet?, List.find?] at h ih
      rw [show ((k' == k) = false) from by simp [hk]] at h
      exact List.mem_cons_of_mem _ (ih h)

/-- Writing a fresh key appends its entry to the channel map. -/
theorem chanSet_of_not_mem {m : List (String × Nat)} {k : String} (c : Nat)
    (h : k ∉ m.map Prod.fst) : chanSet m k c = m ++ [(k, c)] := by
  induction m with
  | nil => rfl
  | cons p rest ih =>
    obtain ⟨k', c'⟩ := p
    simp only [List.map_cons, List.mem_cons, not_or] at h
    simp [chanSet, Ne.symm h.1, ih h.2]

/-- `Prod.fst` commutes with key filtering. -/
theorem map_fst_filter_key (m : List (String × Nat)) (k : String) :
    (m.filter (fun p => p.1 != k)).map Prod.fst =
      (m.map Prod.fst).filter (fun x => x != k) := by
  induction m with
  | nil => rfl
  | cons p rest ih =>
    by_cases h : p.1 = k <;> simp [List.filter_cons, h, ih]

/-- `Prod.snd` commutes with channel filtering. -/
theorem map_snd_filter_chan (m : List (String × Nat)) (c : Nat) :
    (m.filter (fun p => p.2 != c)).map Prod.snd =
      (m.map Prod.snd).filter (fun x => x != c) := by
  induction m with
  | nil => rfl
  | cons p rest ih =>
    by_cases h : p.2 = c <;> simp [List.filter_cons, h, ih]

/-- With distinct keys and distinct channels, deleting an entry's key
removes the same entries as closing its channel. -/
theorem filter_key_eq_filter_chan {m : List (String × Nat)} {k : String} {c : Nat}
    (hmem : (k, c) ∈ m) (hkeys : (m.map Prod.fst).Nodup)
    (hchans : (m.map Prod.snd).Nodup) :
    m.filter (fun p => p.1 != k) = m.filter (fun p => p.2 != c) := by
  apply List.filter_congr
  intro p hp
  by_cases h1 : p.1 = k
  · have hp2 : p = (k, c) := List.inj_on_of_nodup_map hkeys hp hmem h1
    subst hp2
    simp
  · have h2 : p.2 ≠ c := by
      intro hc
      exact h1 (congrArg Prod.fst (List.inj_on_of_nodup_map hchans hp hmem hc))
    rw [bne_iff_ne.mpr h1, bne_iff_ne.mpr h2]

/-- `Register` without a stop-channel overwrite preserves the lifecycle
invariant. -/
theorem Register_preserves_good {s : CSDState} {i : ServiceInstance} {e : Option String}
    {r : Option String × CSDState} (hg : goodState s)
    (hnov : e = none → buildID i ∉ ttlMapKeys s)
    (hs : Register s i e = some r) :
    goodState r.2 := by
  rcases hg with ⟨hc, httl, hkr, hnk, hnc, hbound⟩ | ⟨hc, httl, htasks⟩
  · cases e with
    | some err =>
      simp only [Register, hc, Bool.true_eq_false, if_false] at hs
      obtain rfl := (Option.some.injEq _ _).mp hs
      exact Or.inl ⟨hc, httl, hkr, hnk, hnc, hbound⟩
    | none =>
      have hnotin : buildID i ∉ s.tasks.map Prod.fst := by
        have h0 := hnov rfl
        simpa [ttlMapKeys, httl] using h0
      have hnr : buildID i ∉ s.registered := hkr ▸ hnotin
      have hcfresh : s.nextChan ∉ s.tasks.map Prod.snd := by
        intro hmem
        obtain ⟨p, hp, hpc⟩ := List.mem_map.mp hmem
        exact absurd (hpc ▸ hbound p hp) (lt_irrefl _)
      simp only [Register, hc, Bool.true_eq_false, if_false, registerTtl, httl] at hs
      obtain rfl := (Option.some.injEq _ _).mp hs
      refine Or.inl ⟨rfl, ?_, ?_, ?_, ?_, ?_⟩
      · simp [chanSet_of_not_mem _ hnotin]
      · simp [keyInsert, hnr, hkr]
      · simp only [List.map_append, List.map_cons, List.map_nil]
        exact List.Nodup.append hnk (List.nodup_singleton _) (by
          intro x hx hx'
          simp only [List.mem_singleton] at hx'
          subst hx'
          exact hnotin hx)
      · simp only [List.map_append, List.map_cons, List.map_nil]
        exact List.Nodup.append hnc (List.nodup_singleton _) (by
          intro x hx hx'
          simp only [List.mem_singleton] at hx'
          subst hx'
          exact hcfresh hx)
      · intro p hp
        rcases List.mem_append.mp hp with h | h
        · exact Nat.lt_succ_of_lt (hbound p h)
        · simp only [List.mem_singleton] at h
          subst h
          exact Nat.lt_succ_self _
  · simp [Register, hc] at hs

/-- `Unregister` preserves the lifecycle invariant. -/
theorem Unregister_preserves_good {s : CSDState} {i : ServiceInstance} {e : Option String}
    {r : Option String × CSDState} (hg : goodState s) (hs : Unregister s i e = some r) :
    goodState r.2 := by
  rcases hg with ⟨hc, httl, hkr, hnk, hnc, hbound⟩ | ⟨hc, httl, htasks⟩
  · cases e with
    | some err =>
      simp only [Unregister, hc, Bool.true_eq_false, if_false] at hs
      obtain rfl := (Option.some.injEq _ _).mp hs
      exact Or.inl ⟨hc, httl, hkr, hnk, hnc, hbound⟩
    | none =>
      simp only [Unregister, hc, Bool.true_eq_false, if_false, httl] at hs
      cases hget : chanGet? s.tasks (buildID i) with
      | none =>
        simp only [hget] at hs
        obtain rfl := (Option.some.injEq _ _).mp hs
        have hnot : buildID i ∉ s.tasks.map Prod.fst := (chanGet?_eq_none_iff _ _).mp hget
        have hkeep : s.registered.erase (buildID i) = s.registered :=
          List.erase_of_not_mem (hkr ▸ hnot)
        refine Or.inl ⟨rfl, rfl, ?_, hnk, hnc, hbound⟩
        rw [hkeep]
        exact hkr
      | some c =>
        simp only [hget] at hs
        obtain rfl := (Option.some.injEq _ _).mp hs
        have hmem : (buildID i, c) ∈ s.tasks := chanGet?_mem hget
        have hkey_chan := filter_key_eq_filter_chan hmem hnk hnc
        have hnreg : s.registered.Nodup := hkr ▸ hnk
        refine Or.inl ⟨rfl, ?_, ?_, ?_, ?_, ?_⟩
        · rw [hkey_chan]
        · rw [← hkey_chan, map_fst_filter_key, hkr, ← List.Nodup.erase_eq_filter hnreg]
        · rw [← hkey_chan, map_fst_filter_key]
          exact hnk.filter _
        · rw [map_snd_filter_chan]
          exact hnc.filter _
        · intro p hp
          exact hbound p (List.mem_of_mem_filter hp)
  · simp [Unregister, hc] at hs

/-- `Destroy` lands in the destroyed half of the invariant: starting
from an invariant state, every task's channel is still in the map, so
closing the map's channels terminates them all. -/
theorem Destroy_good {s : CSDState} (hg : goodState s) : goodState (Destroy s).2 := by
  rcases hg with ⟨hc, httl, hkr, hnk, hnc, hbound⟩ | ⟨hc, httl, htasks⟩
  · right
    refine ⟨?_, ?_, ?_⟩
    · simp [Destroy, httl]
    · simp [Destroy, httl]
    · simp only [Destroy, httl]
      refine List.filter_eq_nil_iff.mpr ?_
      intro p hp
      simp only [decide_eq_true_eq, not_not]
      exact List.mem_map_of_mem Prod.snd hp
  · right
    refine ⟨?_, ?_, ?_⟩ <;> simp [Destroy, httl, htasks]

/-- Any non-`Update`, non-overwriting operation preserves the lifecycle
invariant. -/
theorem stepOp_preserves_good {s s' : CSDState} {op : AdapterOp}
    (hnu : op.isUpdate = false)
    (hnov : ∀ i, op = AdapterOp.register i none → buildID i ∉ ttlMapKeys s)
    (hg : goodState s) (hs : stepOp s op = some s') :
    goodState s' := by
  cases op with
  | register i e =>
    simp only [stepOp, Option.map_eq_some'] at hs
    obtain ⟨r, hr, rfl⟩ := hs
    exact Register_preserves_good hg (fun he => hnov i (by rw [he])) hr
  | update i d r => simp [AdapterOp.isUpdate] at hnu
  | unregister i e =>
    simp only [stepOp, Option.map_eq_some'] at hs
    obtain ⟨r, hr, rfl⟩ := hs
    exact Unregister_preserves_good hg hr
  | destroy =>
    simp only [stepOp, Option.some.injEq] at hs
    exact hs ▸ Destroy_good hg

/-- Running a sequence of non-`Update` operations without stop-channel
overwrites preserves the invariant. -/
theorem runFrom_good (ops : List AdapterOp) :
    ∀ s s' : CSDState, goodState s → noChannelOverwrite s ops = true →
      (∀ op ∈ ops, op.isUpdate = false) → runFrom s ops = some s' → goodState s' := by
  induction ops with
  | nil =>
    intro s s' hg _ _ hr
    simp only [runFrom, Option.some.injEq] at hr
    exact hr ▸ hg
  | cons op rest ih =>
    intro s s' hg hnov hAll hr
    simp only [noChannelOverwrite, Bool.and_eq_true] at hnov
    obtain ⟨hhead, htail⟩ := hnov
    cases hstep : stepOp s op with
    | none => simp [runFrom, hstep] at hr
    | some s1 =>
      simp only [runFrom, hstep] at hr
      simp only [hstep] at htail
      refine ih s1 s'
        (stepOp_preserves_good (hAll op (List.mem_cons_self op rest)) ?_ hg hstep)
        htail (fun o ho => hAll o (List.mem_cons_of_mem op ho)) hr
      intro i hop
      subst hop
      simpa using hhead

/-- In an invariant state the keys with an active heartbeat task are the
believed-registered keys. -/
theorem goodState_eq {s : CSDState} (hg : goodState s) :
    taskKeys s = believedRegistered s := by
  rcases hg with ⟨hc, _, hkr, _, _, _⟩ | ⟨hc, _, htasks⟩
  · simp [taskKeys, believedRegistered, hc, hkr]
  · simp [taskKeys, believedRegistered, hc, htasks]

/-! ## Claims -/

/-- C1 (counterexample): the claimed invariant "keys with an active
heartbeat task = believed-registered keys after every operation
sequence" is refuted twice.  First, as stated: a single successful
`Update` on a never-registered instance registers it at the backend but
starts no heartbeat task (`Update` never touches the `ttl` map).
Second, even restricted to Update-free sequences: a duplicate
`Register` overwrites the key's stop channel and orphans the first
goroutine, so after `Register iA, Register iA, Unregister iA` the
orphaned heartbeat task is still running while the adapter believes the
key unregistered. -/
theorem C1_counterexample :
    (¬ (∀ ops : List AdapterOp, ∀ s, runOps ops = some s →
        taskKeys s = believedRegistered s))
    ∧ (¬ (∀ ops : List AdapterOp, (∀ op ∈ ops, op.isUpdate = false) →
        ∀ s, runOps ops = some s → taskKeys s = believedRegistered s)) := by
  constructor
  · intro h
    have h2 := h [AdapterOp.update iA none none]
        { consulClient := true, ttl := some [], tasks := [], nextChan := 0,
          registered := [buildID iA] } (by decide)
    exact absurd h2 (by decide)
  · intro h
    have h2 := h [AdapterOp.register iA none, AdapterOp.register iA none,
        AdapterOp.unregister iA none] (by decide)
        { consulClient := true, ttl := some [], tasks := [(buildID iA, 0)],
          nextChan := 2, registered := [] } (by decide)
    exact absurd h2 (by decide)

/-- C1 (amended): for every sequence of Init/Register/Unregister/Destroy
operations (no Update) in which no successful register is issued for a
key already holding a heartbeat entry (no stop-channel overwrite), the
set of instance keys with an active heartbeat task equals the set of
keys the adapter believes registered; and `Update` never modifies the
heartbeat map or the running tasks, so a successful `Update` leaves a
heartbeat task for its key only if one already existed.  (A duplicate
register breaks the invariant permanently: the overwritten task is
orphaned and keeps running, uncancellable even by `Destroy`.) -/
theorem C1_heartbeat_invariant :
    (∀ ops : List AdapterOp, noChannelOverwrite initState ops = true →
        (∀ op ∈ ops, op.isUpdate = false) →
        ∀ s, runOps ops = some s → taskKeys s = believedRegistered s)
    ∧ (∀ (s : CSDState) (inst : ServiceInstance) (d r : Option String) p,
        Update s inst d r = some p → p.2.ttl = s.ttl ∧ p.2.tasks = s.tasks) := by
  constructor
  · intro ops hnov hno s hrun
    exact goodState_eq
      (runFrom_good ops initState s (Or.inl ⟨rfl, rfl, rfl, List.nodup_nil,
        List.nodup_nil, by intro p hp; simp [initState] at hp⟩) hnov hno hrun)
  · intro s inst d r p hp
    simp only [Update] at hp
    by_cases hc : s.consulClient = false
    · rw [if_pos hc] at hp
      exact Option.noConfusion hp
    · rw [if_neg hc] at hp
      cases d <;> cases r <;>
        (simp only [Option.some.injEq] at hp; subst hp; exact ⟨rfl, rfl⟩)

/-- Witness for C1 (amended): a single register leaves the heartbeat
task keys equal to the believed-registered set. -/
theorem C1_witness :
    taskKeys stA = believedRegistered stA :=
  C1_heartbeat_invariant.1 [AdapterOp.register iA none] (by decide) (by decide) stA (by decide)

/-- C2: if the backend register call fails, `Register` returns the
backend error wrapped by `perrors.WithMessage` and the adapter's state
is returned unchanged: no heartbeat task is started and no entry is
added to the `ttl` map. -/
theorem C2_register_error_atomic (s : CSDState) (inst : ServiceInstance) (e : String)
    (h : s.consulClient = true) :
    Register s inst (some e) =
      some (some ("consul could not register the instance. " ++ inst.serviceName ++ ": " ++ e),
        s) := by
  simp [Register, h]

/-- Witness for C2 at a concrete state and instance. -/
theorem C2_witness :
    Register initState iA (some "boom") =
      some (some ("consul could not register the instance. " ++ iA.serviceName ++ ": " ++ "boom"),
        initState) :=
  C2_register_error_atomic initState iA "boom" rfl

/-- C3: `Unregister` on backend failure returns the error and leaves the
whole state (in particular the heartbeat map) unchanged; on backend
success it removes and closes the heartbeat entry when present and
returns a nil error, and when no entry exists it still returns a nil
error with the heartbeat map unchanged. -/
theorem C3_unregister_cases (s : CSDState) (inst : ServiceInstance)
    (h : s.consulClient = true) :
    (∀ e, Unregister s inst (some e) = some (some e, s))
    ∧ (∀ m c, s.ttl = some m → chanGet? m (buildID inst) = some c →
        Unregister s inst none =
          some (none, { consulClient := s.consulClient,
                        ttl := some (m.filter (fun p => p.1 != buildID inst)),
                        tasks := s.tasks.filter (fun p => p.2 != c),
                        nextChan := s.nextChan,
                        registered := s.registered.erase (buildID inst) }))
    ∧ (∀ m, s.ttl = some m → chanGet? m (buildID inst) = none →
        Unregister s inst none =
          some (none, { consulClient := s.consulClient,
                        ttl := some m,
                        tasks := s.tasks,
                        nextChan := s.nextChan,
                        registered := s.registered.erase (buildID inst) })) := by
  refine ⟨fun e => by simp [Unregister, h], fun m c hm hget => ?_, fun m hm hget => ?_⟩
  · simp [Unregister, h, hm, hget]
  · simp [Unregister, h, hm, hget]

/-- Witness for C3: all three cases at concrete states. -/
theorem C3_witness :
    Unregister initState iA (some "boom") = some (some "boom", initState)
    ∧ Unregister stA iA none =
        some (none, { consulClient := true, ttl := some [], tasks := [],
                      nextChan := 1, registered := [] })
    ∧ Unregister initState iA none = some (none, initState) :=
  ⟨(C3_unregister_cases initState iA rfl).1 "boom",
   ((C3_unregister_cases stA iA rfl).2.1 [(buildID iA, 0)] 0 rfl (by decide)).trans (by decide),
   ((C3_unregister_cases initState iA rfl).2.2 [] rfl (by decide)).trans (by decide)⟩

/-- Encoding then decoding reproduces the instance up to: the id comes
back as the derived key, the metadata comes back with the reserved
`enable` key stripped, and `healthy` is recomputed from the status. -/
theorem decode_encode_fields (csd : ConsulServiceDiscovery) (inst : ServiceInstance)
    (status : String) :
    decodeServiceEntry (entryOfRegistration (buildRegisterInstance csd inst).1 status) =
      { id := buildID inst
        serviceName := inst.serviceName
        host := inst.host
        port := inst.port
        enable := inst.enable
        healthy := status == HealthPassing
        metadata := some (mapDel (mapSet (getMetadata inst) enable (formatBool inst.enable))
          enable) } := by
  cases hm : inst.metadata with
  | none =>
      simp [decodeServiceEntry, entryOfRegistration, buildRegisterInstance, hm, getMetadata,
        mapGet, mapGet?_mapSet_self, parseBool_formatBool]
  | some m =>
      simp [decodeServiceEntry, entryOfRegistration, buildRegisterInstance, hm, getMetadata,
        mapGet, mapGet?_mapSet_self, parseBool_formatBool]

/-- C4 (counterexample): encode-then-decode does not reproduce `id`:
the backend record's ID field is the derived instance key, and the
decode path reads it back as the instance id. -/
theorem C4_counterexample :
    (decodeServiceEntry (entryOfRegistration (buildRegisterInstance csd0 iA).1
      HealthPassing)).id ≠ iA.id := by
  decide

/-- C4 (amended): encoding with `buildRegisterInstance` and decoding the
resulting record with the `GetInstances` translation reproduces
serviceName, host, port and enable exactly, while the decoded id equals
the derived instance key `buildID`; the decoded visible metadata does
not contain the reserved `enable` key; an unparsable enable value
decodes to `false` rather than failing; and the encode path neither
reads nor writes a healthy field. -/
theorem C4_codec_roundtrip :
    (∀ csd inst status,
        (decodeServiceEntry (entryOfRegistration (buildRegisterInstance csd inst).1
            status)).serviceName = inst.serviceName
        ∧ (decodeServiceEntry (entryOfRegistration (buildRegisterInstance csd inst).1
            status)).host = inst.host
        ∧ (decodeServiceEntry (entryOfRegistration (buildRegisterInstance csd inst).1
            status)).port = inst.port
        ∧ (decodeServiceEntry (entryOfRegistration (buildRegisterInstance csd inst).1
            status)).enable = inst.enable
        ∧ (decodeServiceEntry (entryOfRegistration (buildRegisterInstance csd inst).1
            status)).id = buildID inst
        ∧ mapGet? ((decodeServiceEntry (entryOfRegistration (buildRegisterInstance csd inst).1
            status)).metadata.getD []) enable = none)
    ∧ (∀ e : ServiceEntry, parseBool (mapGet e.serviceMeta enable) = none →
        (decodeServiceEntry e).enable = false)
    ∧ (∀ csd inst b,
        (buildRegisterInstance csd { inst with healthy := b }).1 =
          (buildRegisterInstance csd inst).1) := by
  refine ⟨fun csd inst status => ?_, fun e he => ?_, fun csd inst b => ?_⟩
  · rw [decode_encode_fields]
    exact ⟨rfl, rfl, rfl, rfl, rfl, by simpa using mapGet?_mapDel_self _ enable⟩
  · simp [decodeServiceEntry, he]
  · cases hm : inst.metadata <;>
      simp [buildRegisterInstance, hm, buildCheck, getMetadata, buildID]

/-- Witness for C4 (amended): the unparsable-enable hypothesis at a
concrete entry whose enable value is "yes". -/
theorem C4_witness : (decodeServiceEntry eBad).enable = false :=
  C4_codec_roundtrip.2.1 eBad (by decide)

/-- C5: over every schedule of tick outcomes, a failed pass call behaves
exactly like a successful one (the task keeps ticking), the loop has
exited exactly when the stop signal occurred in the schedule, and the
number of pass calls equals the number of ticks that precede the first
stop signal (none after it). -/
theorem C5_heartbeat_loop :
    (∀ (e : Option String) (rest : List HbEvent),
        hbRun (HbEvent.tick e :: rest) = ((hbRun rest).1 + 1, (hbRun rest).2))
    ∧ (∀ evs, (hbRun evs).2 = true ↔ HbEvent.stop ∈ evs)
    ∧ (∀ evs, (hbRun evs).1 = (evs.takeWhile (fun ev => !ev.isStop)).length) :=
  ⟨fun _ _ => rfl, hbRun_snd_iff, hbRun_fst_eq⟩

/-- C6: the heartbeat period is checkPassInterval/8 milliseconds
(truncated integer division, rendered in Duration nanoseconds); the TTL
check descriptor has checkID = the derived instance key, TTL =
checkPassInterval/1000 seconds (truncated), and deregister-after taken
from the instance metadata when present and non-empty, else the fixed
default. -/
theorem C6_period_and_check (csd : ConsulServiceDiscovery) (inst : ServiceInstance) :
    registerTtlPeriodNs csd = msToNs (Int.tdiv csd.checkPassInterval 8)
    ∧ (buildCheck csd inst).checkID = buildID inst
    ∧ (buildCheck csd inst).ttl = toString (Int.tdiv csd.checkPassInterval 1000) ++ "s"
    ∧ (∀ v, mapGet? (getMetadata inst) DEREGISTER_AFTER = some v → v ≠ "" →
        (buildCheck csd inst).deregisterCriticalServiceAfter = v)
    ∧ (mapGet? (getMetadata inst) DEREGISTER_AFTER = none →
        (buildCheck csd inst).deregisterCriticalServiceAfter = DEFAULT_DEREGISTER_TIME)
    ∧ (mapGet? (getMetadata inst) DEREGISTER_AFTER = some "" →
        (buildCheck csd inst).deregisterCriticalServiceAfter = DEFAULT_DEREGISTER_TIME) := by
  refine ⟨rfl, rfl, rfl, fun v hv hne => ?_, fun hn => ?_, fun he => ?_⟩
  · simp [buildCheck, hv, hne]
  · simp [buildCheck, hn]
  · simp [buildCheck, he]

/-- Witness for C6: the default at an instance without the metadata key,
and the metadata-supplied duration at an instance carrying one. -/
theorem C6_witness :
    (buildCheck csd0 iA).deregisterCriticalServiceAfter = DEFAULT_DEREGISTER_TIME
    ∧ (buildCheck csd0 iDereg).deregisterCriticalServiceAfter = "90s" :=
  ⟨(C6_period_and_check csd0 iA).2.2.2.2.1 (by decide),
   (C6_period_and_check csd0 iDereg).2.2.2.1 "90s" (by decide) (by decide)⟩

/-- C7: the claim fails on the code (unit slip).  `GetInstances` computes
`waitTime = W/1000` and passes `time.Duration(waitTime)`, i.e. W/1000
nanoseconds, not W milliseconds: at the concrete watch-timeout
W = 5000 ms the backend query is given a 5-nanosecond wait, where the
claim requires 5000 ms = 5000000000 ns. -/
theorem C7_wait_time_unit_slip :
    getInstancesWaitTimeNs 5000 = 5
    ∧ msToNs 5000 = 5000000000
    ∧ getInstancesWaitTimeNs 5000 ≠ msToNs 5000 := by
  refine ⟨by decide, by decide, by decide⟩

/-- C8: `GetHealthyInstancesByPage` starts scanning at source index
`offset`, collects entries whose healthy flag equals the requested one
until `pageSize` matches are found or the source ends, and reports the
unfiltered source length as totalCount; in particular over
[healthy, unhealthy, healthy, healthy] with offset 0 and pageSize 2 it
returns the instances at source positions 0 and 2 with totalCount 4. -/
theorem C8_healthy_paging :
    (∀ (all : List ServiceInstance) (offset pageSize : Nat) (healthy : Bool),
        GetHealthyInstancesByPage all offset pageSize healthy =
          { offset := offset
            pageSize := pageSize
            data := ((all.drop offset).filter (fun x => x.healthy == healthy)).take pageSize
            totalCount := all.length })
    ∧ GetHealthyInstancesByPage [iH0, iU1, iH2, iH3] 0 2 true =
        { offset := 0, pageSize := 2, data := [iH0, iH2], totalCount := 4 } := by
  constructor
  · intro all offset pageSize healthy
    simp [GetHealthyInstancesByPage, healthyScan_eq_filter_take]
  · decide

/-- C9 (counterexample): `buildRegisterInstance` is not pure with
respect to the caller's instance: with a non-nil (empty) metadata map
the caller's map afterwards contains the reserved `enable` key. -/
theorem C9_counterexample : (buildRegisterInstance csd0 iA).2 ≠ iA := by
  decide

/-- C9 (amended): `buildRegisterInstance` leaves the caller's instance
unchanged exactly when its metadata map is nil; when the map is non-nil
the caller's instance afterwards differs only in that its metadata map
now carries the reserved `enable` key bound to the encoded enable flag
(the registration record aliases that same map). -/
theorem C9_encode_mutates_caller :
    (∀ csd inst, inst.metadata = none → (buildRegisterInstance csd inst).2 = inst)
    ∧ (∀ csd inst m, inst.metadata = some m →
        (buildRegisterInstance csd inst).2 =
          { inst with metadata := some (mapSet m enable (formatBool inst.enable)) })
    ∧ (∀ csd inst m, inst.metadata = some m →
        (buildRegisterInstance csd inst).1.meta =
          mapSet m enable (formatBool inst.enable)) := by
  refine ⟨fun csd inst h => ?_, fun csd inst m h => ?_, fun csd inst m h => ?_⟩
  · simp [buildRegisterInstance, h]
  · simp [buildRegisterInstance, h]
  · simp [buildRegisterInstance, h]

/-- Witness for C9 (amended): the nil-metadata case and the non-nil
(empty-map) case at concrete instances. -/
theorem C9_witness :
    (buildRegisterInstance csd0 iNil).2 = iNil
    ∧ (buildRegisterInstance csd0 iA).2 =
        { iA with metadata := some (mapSet [] enable (formatBool iA.enable)) } :=
  ⟨C9_encode_mutates_caller.1 csd0 iNil rfl, C9_encode_mutates_caller.2.1 csd0 iA [] rfl⟩

/-- C10: `Destroy` nils the client and the heartbeat map; on the
destroyed state `Register` has no defined result (it runs into the nil
client and, past it, the nil-map write); and on any live state (client
present, heartbeat map non-nil) `Register` is total. -/
theorem C10_register_after_destroy :
    (∀ s : CSDState, (Destroy s).2.consulClient = false ∧ (Destroy s).2.ttl = none)
    ∧ (∀ (s : CSDState) (inst : ServiceInstance) (e : Option String),
        Register (Destroy s).2 inst e = none)
    ∧ (∀ (s : CSDState) (inst : ServiceInstance) (e : Option String) m,
        s.consulClient = true → s.ttl = some m → (Register s inst e).isSome = true) := by
  refine ⟨fun s => by cases h : s.ttl <;> simp [Destroy, h],
    fun s inst e => by cases h : s.ttl <;> simp [Register, Destroy, h], ?_⟩
  intro s inst e m hc hm
  cases e with
  | some err => simp [Register, hc]
  | none => simp [Register, hc, registerTtl, hm]

/-- Witness for C10: register after destroy panics, register on the
fresh adapter succeeds. -/
theorem C10_witness :
    Register (Destroy initState).2 iA none = none
    ∧ (Register initState iA none).isSome = true :=
  ⟨C10_register_after_destroy.2.1 initState iA none,
   C10_register_after_destroy.2.2 initState iA none [] rfl rfl⟩
